import Mathlib

/-!
Shallow embedding of script/coverity_parser.py together with proofs about
the specified behaviour.  Python strings are modelled as Lean String
values, Python lists as List, Python dicts of known shape as structures
whose fields are exactly the keys the program reads (Option fields where
the program uses dict.get, or where the key may be absent from the raw
JSON document), and Python exceptions as the error side of Except.
All definitions are computable and follow the source line by line.
-/

namespace Coverity

/-- Python runtime exceptions raised by the modelled code paths. -/
inductive PyErr where
  | unboundLocal
  | keyError
  | typeError
  | indexError
  deriving DecidableEq, Repr

/-- Model of the Python expression s.lstrip(c) for a one character strip set:
all leading copies of c are removed. -/
def pyLstrip (s : String) (c : Char) : String :=
  (s.toList.dropWhile (fun x => x == c)).asString

/-- Model of the Python expression s.startswith(p): a raw string prefix test. -/
def pyStartswith (s p : String) : Bool :=
  p.toList.isPrefixOf s.toList

/-- Model of the Python expression s.zfill(w).  The argument strings here are
decimal renderings of naturals (or the text None), never signed, so the sign
handling of zfill is irrelevant and plain left padding with 0 is exact. -/
def pyZfill (s : String) (w : Nat) : String :=
  if s.length < w then (List.replicate (w - s.length) '0').asString ++ s else s

/-- Source lines 21 to 27: subtree prefixes of directories imported from
other projects, excluded from the scan results. -/
def IGNORED_DIRS : List String :=
  ["lib/libfdt", "include/lib/libfdt", "lib/compiler-rt", "lib/zlib",
   "include/lib/zlib"]

/-- Source lines 29 to 49: checkers excluded wholesale from the results. -/
def _rule_exclusions : List String :=
  ["MISRA C-2012 Rule 2.4", "MISRA C-2012 Rule 2.5", "MISRA C-2012 Rule 2.7",
   "MISRA C-2012 Rule 5.1", "MISRA C-2012 Rule 5.8", "MISRA C-2012 Rule 8.6",
   "MISRA C-2012 Rule 8.7", "MISRA C-2012 Rule 11.4", "MISRA C-2012 Rule 11.5",
   "MISRA C-2012 Rule 15.1", "MISRA C-2012 Rule 15.5", "MISRA C-2012 Rule 15.6",
   "MISRA C-2012 Rule 16.1", "MISRA C-2012 Rule 16.3", "MISRA C-2012 Rule 17.1",
   "MISRA C-2012 Rule 21.6", "MISRA C-2012 Directive 4.6",
   "MISRA C-2012 Directive 4.8", "MISRA C-2012 Directive 4.9"]

/-- Source lines 55 to 56: required directive numbers. -/
def _dir_required : List String :=
  ["1.1", "2.1", "3.1", "4.1", "4.3", "4.7", "4.10", "4.11", "4.12", "4.14"]

/-- Source line 58: advisory directive numbers. -/
def _dir_advisory : List String :=
  ["4.2", "4.4", "4.5", "4.6", "4.8", "4.9", "4.13"]

/-- Source lines 61 to 63: mandatory rule numbers. -/
def _rule_mandatory : List String :=
  ["9.1", "9.2", "9.3", "12.5", "13.6", "17.3", "17.4", "17.6", "19.1",
   "21.13", "21.17", "21.18", "21.19", "21.20", "22.2", "22.5", "22.6"]

/-- Source lines 65 to 76: required rule numbers. -/
def _rule_required : List String :=
  ["1.1", "1.3", "2.1", "2.2", "3.1", "3.2", "4.1", "5.1", "5.2", "5.3",
   "5.4", "5.5", "5.6", "5.7", "5.8", "6.1", "6.2", "7.1", "7.2", "7.3",
   "7.4", "8.1", "8.2", "8.3", "8.4", "8.5", "8.6", "8.7", "8.8", "8.10",
   "8.12", "8.14", "9.2", "9.3", "9.4", "9.5", "10.1", "10.2", "10.3",
   "10.4", "10.6", "10.7", "10.8", "11.1", "11.2", "11.3", "11.6", "11.7",
   "11.8", "11.9", "12.2", "13.1", "13.2", "13.5", "14.1", "14.2", "14.3",
   "14.4", "15.2", "15.3", "15.6", "15.7", "16.1", "16.2", "16.3", "16.4",
   "16.5", "16.6", "16.7", "17.1", "17.2", "17.7", "18.1", "18.2", "18.3",
   "18.6", "18.7", "18.8", "20.3", "20.4", "20.6", "20.7", "20.8", "20.9",
   "20.11", "20.12", "20.13", "20.14", "21.1", "21.2", "21.3", "21.4",
   "21.5", "21.6", "21.7", "21.8", "21.9", "21.10", "21.11", "21.14",
   "21.15", "21.16", "22.1", "22.3", "22.4", "22.7", "22.8", "22.9",
   "22.10"]

/-- Source lines 78 to 81: advisory rule numbers. -/
def _rule_advisory : List String :=
  ["1.2", "2.3", "2.4", "2.5", "2.6", "2.7", "4.2", "5.9", "8.9", "8.11",
   "8.13", "10.5", "11.4", "11.5", "12.1", "12.3", "12.4", "13.3", "13.4",
   "15.1", "15.4", "15.5", "17.5", "17.8", "18.4", "18.5", "19.2", "20.1",
   "20.2", "20.5", "20.10", "21.12"]

/-- Model of the dict indexing expression on source lines 84 to 94 and 103.
The dict maps the kind word to its insertion ordered classification sets;
an unknown key yields none, which the caller turns into KeyError. -/
def checkerLookup (kind : String) : Option (List (String × List String)) :=
  if kind = "Directive" then
    some [("required", _dir_required), ("advisory", _dir_advisory)]
  else if kind = "Rule" then
    some [("mandatory", _rule_mandatory), ("required", _rule_required),
          ("advisory", _rule_advisory)]
  else
    none

/-- Model of the for loop on source lines 103 to 105: return the label of the
first classification set containing the number, otherwise fall through. -/
def scanSets (number : String) : List (String × List String) → String
  | [] => "unknown"
  | (label, s) :: rest => if number ∈ s then label else scanSets number rest

/-- Model of the character class w of the checker pattern on source line 96
(ASCII range, which covers every checker string the scanner emits). -/
def isWordChar (c : Char) : Bool :=
  c.isAlphanum || c == '_'

/-- Model of the character class of digits and dots on source line 96. -/
def isNumChar (c : Char) : Bool :=
  c.isDigit || c == '.'

/-- Attempt of the pattern of source line 96 at one fixed start position.
Because the pattern is anchored at the end of the string and a space is not
a word character, the kind group can only be the maximal word run from the
start position, the next character must be the literal space, and the rest
of the string must be a nonempty run of digits and dots. -/
def matchAtPos (l : List Char) : Option (String × String) :=
  match l.takeWhile isWordChar, l.dropWhile isWordChar with
  | [], _ => none
  | kind, ' ' :: tail =>
      if !tail.isEmpty && tail.all isNumChar then
        some (kind.asString, tail.asString)
      else
        none
  | _, _ => none

/-- Model of re.search: try the anchored pattern at every start position from
the left, returning the first success. -/
def searchAux : List Char → Option (String × String)
  | [] => none
  | c :: cs =>
      match matchAtPos (c :: cs) with
      | some r => some r
      | none => searchAux cs

/-- Model of the expression on source line 100 applying the compiled pattern
of source line 96 to a checker string. -/
def checkerSearch (s : String) : Option (String × String) :=
  searchAux s.toList

/-- Source lines 99 to 107.  The lookup of the kind word in the checker table
is a plain dict indexing, so an unrecognised kind word raises KeyError. -/
def _classify_checker (checker : String) : Except PyErr String :=
  match checkerSearch checker with
  | none => .ok "unknown"
  | some (kind, number) =>
      match checkerLookup kind with
      | none => .error .keyError
      | some sets => .ok (scanSets number sets)

/-- Canonical issue record built on source lines 112 to 123 and 125 to 133.
The cid is an Option because the v7 path obtains it with dict.get. -/
structure Issue where
  cid : Option Nat
  file : String
  line : Nat
  checker : String
  classification : String
  description : String
  deriving DecidableEq, Repr

/-- Model of the Python expression str(cid) where cid came from dict.get. -/
def pyStrCid : Option Nat → String
  | none => "None"
  | some n => toString n

/-- One occurrence of a legacy (v1 to v6) issue group, holding exactly the
keys the program reads on source lines 113 to 122 and 170 to 173. -/
structure OccV1 where
  checker : String
  file : String
  mainEventLineNumber : Nat
  mainEventDescription : String
  deriving DecidableEq, Repr

/-- One legacy issue group, holding exactly the keys the program reads on
source lines 168 to 188. -/
structure GroupV1 where
  cid : Nat
  triage_action : String
  presentInComparisonSnapshot : Bool
  occurrences : List OccV1
  deriving DecidableEq, Repr

/-- One event of a v7 issue group, source lines 128 to 132. -/
structure EventV7 where
  strippedFilePathname : String
  lineNumber : Nat
  eventDescription : String
  deriving DecidableEq, Repr

/-- One v7 issue group, holding exactly the keys the program reads on source
lines 192 to 208.  The program reads the key checker_name with dict.get on
line 192 and the key checkerName with plain indexing on lines 202 and 207;
both keys are modelled independently as Option fields, a none meaning the
key is absent from the raw JSON object (plain indexing then raises
KeyError). -/
structure GroupV7 where
  cid : Option Nat
  checker_name : Option String
  checkerName : Option String
  strippedMainEventFilePathname : String
  events : List EventV7
  deriving DecidableEq, Repr

/-- Totals accumulator, source line 163: a defaultdict from classification
labels to counts, modelled as an insertion ordered association list. -/
abbrev Totals : Type := List (String × Nat)

/-- Defaultdict read: a missing key reads as 0. -/
def dget : Totals → String → Nat
  | [], _ => 0
  | (k2, v) :: rest, k => if k2 == k then v else dget rest k

/-- Defaultdict increment of one key, as performed by the statements on
source lines 185, 186, 202 and 203. -/
def bump : Totals → String → Totals
  | [], k => [(k, 1)]
  | (k2, v) :: rest, k =>
      if k2 == k then (k2, v + 1) :: rest else (k2, v) :: bump rest k

/-- Source lines 112 to 123: copy of an occurrence with the leading slashes
stripped from the file path and the shared cid inserted.  The classification
call can raise, and the error propagates. -/
def _new_issue (cid : Nat) (orig_issue : OccV1) : Except PyErr Issue :=
  match _classify_checker orig_issue.checker with
  | .error e => .error e
  | .ok cls =>
      .ok { cid := some cid
            file := pyLstrip orig_issue.file '/'
            line := orig_issue.mainEventLineNumber
            checker := orig_issue.checker
            classification := cls
            description := orig_issue.mainEventDescription }

/-- Record built on source lines 126 to 133 once the classification of the
checker is known. -/
def issueRecV7 (cid : Option Nat) (checker cls : String) (ev : EventV7) : Issue :=
  { cid := cid
    file := ev.strippedFilePathname
    line := ev.lineNumber
    checker := checker
    classification := cls
    description := ev.eventDescription }

/-- Source lines 125 to 133: the v7 record copies the event file path
unchanged; the classification call can raise, and the error propagates. -/
def _new_issue_v7 (cid : Option Nat) (checker : String) (ev : EventV7) :
    Except PyErr Issue :=
  match _classify_checker checker with
  | .error e => .error e
  | .ok cls => .ok (issueRecV7 cid checker cls ev)

/-- Directory test performed by the loop on source lines 172 to 174: strip
the leading slashes of the candidate, then compare against every ignored
subtree with a raw string prefix test. -/
def is_ignored_v1 (path : String) : Bool :=
  IGNORED_DIRS.any (fun d => pyStartswith (pyLstrip path '/') d)

/-- Directory test performed by the loop on source lines 194 to 196: the
candidate is used as is, without stripping. -/
def is_ignored_v7 (path : String) : Bool :=
  IGNORED_DIRS.any (fun d => pyStartswith path d)

/-- Source lines 166 to 179.  The checks run in source order; the first
occurrence is obtained by plain list indexing, so a group with an empty
occurrence list raises IndexError once the triage check has passed. -/
def filter_groups_v1 (show_all : Bool) (g : GroupV1) : Except PyErr Bool :=
  if g.triage_action = "Ignore" then .ok false
  else
    match g.occurrences with
    | [] => .error .indexError
    | occ0 :: _ =>
        if occ0.checker ∈ _rule_exclusions then .ok false
        else if is_ignored_v1 occ0.file then .ok false
        else if show_all = false then .ok (!g.presentInComparisonSnapshot)
        else .ok true

/-- Source lines 181 to 188.  The totals update on line 185 reads the loop
variable occurrence of the for loop on line 187 before that loop has run,
so the first kept group raises UnboundLocalError before updating any total
and before yielding any record; no later group is ever reached, because the
exception propagates out of the generator.  Dropped groups are skipped by
the filter before the faulty statement executes. -/
def iter_issues_v1 (show_all : Bool) :
    List GroupV1 → Totals → Except PyErr (List Issue × Totals)
  | [], t => .ok ([], t)
  | g :: rest, t =>
      match filter_groups_v1 show_all g with
      | .error e => .error e
      | .ok false => iter_issues_v1 show_all rest t
      | .ok true => .error .unboundLocal

/-- Source lines 190 to 197.  The checker is read with dict.get on the key
checker_name; when that key is absent the value None is compared against
the exclusion list of strings and is never a member. -/
def filter_groups_v7 (g : GroupV7) : Bool :=
  match g.checker_name with
  | some s => if s ∈ _rule_exclusions then false
              else !is_ignored_v7 g.strippedMainEventFilePathname
  | none => !is_ignored_v7 g.strippedMainEventFilePathname

/-- Sequencing of the record constructor over the events of a group, in the
Except error model: the first raised exception aborts the traversal. -/
def mapExcept (f : EventV7 → Except PyErr Issue) :
    List EventV7 → Except PyErr (List Issue)
  | [] => .ok []
  | a :: as =>
      match f a with
      | .error e => .error e
      | .ok b =>
          match mapExcept f as with
          | .error e => .error e
          | .ok bs => .ok (b :: bs)

/-- Source lines 199 to 209.  For each kept group the totals are bumped once
for the classification of the value at the camelCase key checkerName and
once for total, then each event yields one record sharing the group cid and
checker.  Reading the key checkerName with plain indexing raises KeyError
when the key is absent. -/
def iter_issues_v7 :
    List GroupV7 → Totals → Except PyErr (List Issue × Totals)
  | [], t => .ok ([], t)
  | g :: rest, t =>
      if filter_groups_v7 g then
        match g.checkerName with
        | none => .error .keyError
        | some cn =>
            match _classify_checker cn with
            | .error e => .error e
            | .ok cls =>
                match mapExcept (_new_issue_v7 g.cid cn) g.events with
                | .error e => .error e
                | .ok recs =>
                    match iter_issues_v7 rest (bump (bump t cls) "total") with
                    | .error e => .error e
                    | .ok (more, tf) => .ok (recs ++ more, tf)
      else iter_issues_v7 rest t

/-- JSON values a formatVersion field can hold, as seen by the comparison on
source line 214. -/
inductive JVal where
  | jint (n : Int)
  | jbool (b : Bool)
  | jstr (s : String)
  | jnull
  deriving DecidableEq, Repr

/-- Schema generation selected by the method on source lines 211 to 217. -/
inductive Gen where
  | legacy
  | current
  deriving DecidableEq, Repr

/-- Source line 214: the expression reading formatVersion with default 0 and
comparing it against 7.  Python compares bool as an integer (so True and
False are both below 7), and comparing a string or None against an integer
raises TypeError. -/
def detect_gen (fv : Option JVal) : Except PyErr Gen :=
  match fv with
  | none => .ok .legacy
  | some (.jint n) => .ok (if 7 ≤ n then .current else .legacy)
  | some (.jbool _) => .ok .legacy
  | some (.jstr _) => .error .typeError
  | some .jnull => .error .typeError

/-- Source lines 145 to 147: the sort and dedup key. -/
def make_key (i : Issue) : String :=
  i.file ++ pyZfill (toString i.line) 5 ++ i.checker ++ pyZfill (pyStrCid i.cid) 5

/-- Source lines 245 to 250: the four lines of the totals template.  The
driver renders it on line 278 with format_map over the defaultdict totals,
so each bracketed key is a defaultdict read and a missing classification
renders as 0 instead of raising. -/
def TOTALS_LINES (t : Totals) : List String :=
  ["TotalDefects:     " ++ toString (dget t "total"),
   "MandatoryDefects: " ++ toString (dget t "mandatory"),
   "RequiredDefects:  " ++ toString (dget t "required"),
   "AdvisoryDefects:  " ++ toString (dget t "advisory")]

/-- Rendered totals dump: the four template lines joined by newlines. -/
def totals_render (t : Totals) : String :=
  String.intercalate "\n" (TOTALS_LINES t)

/-- Mutable state of one Issues object, source lines 159 to 164: the gen
field caches the generator created on first iteration; none models the
initial None, and some rem models a created generator whose remaining
elements are rem. -/
structure IssuesState where
  iterated : Bool
  totals : Totals
  gen : Option (List Issue)

/-- Source lines 159 to 164: the freshly constructed object. -/
def issues_init : IssuesState := { iterated := false, totals := [], gen := none }

/-- Source lines 219 to 222, at the granularity of one full drain of the
iterator: on first use the generator is created (produce abstracts the
sequence the schema adapter yields) and consumed to its end, leaving the
cached generator exhausted; on every later use the exhausted cached
generator yields its remaining elements, namely none. -/
def issues_iter_all (produce : List Issue) (s : IssuesState) :
    List Issue × IssuesState :=
  match s.gen with
  | none => (produce, { s with gen := some [] })
  | some rem => (rem, { s with gen := some [] })

/-! Helper lemmas shared by the claim theorems. -/

/-- Prepending one slash commutes into lstrip of slashes. -/
theorem pyLstrip_cons_slash (p : String) : pyLstrip ("/" ++ p) '/' = pyLstrip p '/' := by
  have h : ("/" ++ p).toList = '/' :: p.toList := String.data_append "/" p
  unfold pyLstrip
  rw [h, List.dropWhile_cons]
  simp only [beq_self_eq_true, if_true]

/-- After dropping every leading slash, the remaining character list cannot
start with a slash. -/
theorem dropWhile_slash_head (l : List Char) :
    (['/'].isPrefixOf (l.dropWhile (fun x => x == '/'))) = false := by
  induction l with
  | nil => rfl
  | cons c cs ih =>
    by_cases h : c = '/'
    · subst h; simpa [List.dropWhile_cons] using ih
    · have h2 : (c == '/') = false := beq_eq_false_iff_ne.mpr h
      have h3 : ('/' == c) = false := beq_eq_false_iff_ne.mpr (Ne.symm h)
      simp [List.dropWhile_cons, h2, List.isPrefixOf, h3]

/-- A string produced by pyLstrip of slashes never starts with a slash. -/
theorem pyStartswith_lstrip_slash (s : String) :
    pyStartswith (pyLstrip s '/') "/" = false := by
  have hs : ("/" : String).toList = ['/'] := rfl
  simp only [pyStartswith, pyLstrip, List.toList_asString, hs]
  exact dropWhile_slash_head s.toList

/-- Lexicographic order is preserved under a common list prefix. -/
theorem lexAppendLeft {r : Char → Char → Prop} :
    ∀ (l a b : List Char), List.Lex r a b → List.Lex r (l ++ a) (l ++ b)
  | [], _, _, h => h
  | _ :: cs, a, b, h => List.Lex.cons (lexAppendLeft cs a b h)

/-- The zero padded rendering of line 2 is lexicographically below the one of
line 10, whatever text follows each. -/
theorem lexMid (x y : List Char) :
    List.Lex (fun a b : Char => a < b) ("00002".toList ++ x) ("00010".toList ++ y) := by
  have h2 : "00002".toList = ['0', '0', '0', '0', '2'] := rfl
  have h10 : "00010".toList = ['0', '0', '0', '1', '0'] := rfl
  rw [h2, h10]
  exact List.Lex.cons (List.Lex.cons (List.Lex.cons (List.Lex.rel (by decide))))

/-- Defaultdict read of a key that is absent from the accumulator gives 0. -/
theorem dget_absent : ∀ (t : Totals) (k : String), k ∉ t.map Prod.fst → dget t k = 0 := by
  intro t k hk
  induction t with
  | nil => rfl
  | cons p ps ih =>
    obtain ⟨k2, v⟩ := p
    simp only [List.map_cons, List.mem_cons, not_or] at hk
    have h1 : (k2 == k) = false := by
      simp only [beq_eq_false_iff_ne, ne_eq]
      exact fun h => hk.1 h.symm
    simp only [dget, h1, Bool.false_eq_true, if_false]
    exact ih hk.2

/-- Record construction over a list of events succeeds eventwise once the
shared checker classifies successfully. -/
theorem mapExcept_ok (cid : Option Nat) (cn cls : String)
    (hc : _classify_checker cn = .ok cls) :
    ∀ evs : List EventV7,
      mapExcept (_new_issue_v7 cid cn) evs = .ok (evs.map (issueRecV7 cid cn cls)) := by
  intro evs
  induction evs with
  | nil => rfl
  | cons e es ih => simp [mapExcept, _new_issue_v7, hc, ih]

/-! Claim theorems. -/

/-- C1: the claim states that each kept legacy group bumps the totals once for
total and once for the classification of the first occurrence checker, and
that each occurrence yields one record with the shared cid.  The code instead
raises UnboundLocalError at the first kept group: the totals update on source
line 185 reads the loop variable occurrence (and the key checkerName, which
legacy occurrences do not carry) before the for loop on line 187 has bound
it.  This theorem evaluates the model at a report with one kept group. -/
theorem iter_issues_v1_first_kept_group_raises :
    iter_issues_v1 false
      [{ cid := 1, triage_action := "Undecided", presentInComparisonSnapshot := false,
         occurrences := [{ checker := "MISRA C-2012 Rule 9.1", file := "a.c",
                           mainEventLineNumber := 3, mainEventDescription := "d" }] }]
      [] = .error .unboundLocal := rfl

/-- C2 counterexample: a kept v7 group of the shape the claim assumes, with
the snake case key checker_name present and no camelCase key checkerName,
makes the iteration raise KeyError on source line 202 instead of bumping the
totals and yielding the record of its single event as the claim states. -/
theorem iter_issues_v7_snake_case_group_raises :
    iter_issues_v7
      [{ cid := some 1, checker_name := some "Rule 1.3", checkerName := none,
         strippedMainEventFilePathname := "m.c",
         events := [{ strippedFilePathname := "f.c", lineNumber := 4,
                      eventDescription := "d" }] }] [] = .error .keyError
    ∧ (Except.error PyErr.keyError : Except PyErr (List Issue × Totals)) ≠
        .ok ([issueRecV7 (some 1) "Rule 1.3" "required"
               { strippedFilePathname := "f.c", lineNumber := 4, eventDescription := "d" }],
             [("required", 1), ("total", 1)]) :=
  ⟨rfl, fun h => nomatch h⟩

/-- C2 amended: for every kept v7 group carrying the camelCase key
checkerName (the key the iteration actually reads; the snake case key
checker_name of the spec shape is only consulted by the group filter), the
totals entries for the classification of checkerName and for total are each
bumped exactly once per group, and every event yields exactly one record
sharing the group cid and checkerName with the event file, line and
description. -/
theorem iter_issues_v7_kept_group_bumps_once (g : GroupV7) (rest : List GroupV7)
    (t : Totals) (cn cls : String) (hk : filter_groups_v7 g = true)
    (hn : g.checkerName = some cn) (hc : _classify_checker cn = .ok cls) :
    iter_issues_v7 (g :: rest) t =
      match iter_issues_v7 rest (bump (bump t cls) "total") with
      | .error e => .error e
      | .ok (more, tf) => .ok (g.events.map (issueRecV7 g.cid cn cls) ++ more, tf) := by
  simp only [iter_issues_v7, hk, if_true, hn, hc, mapExcept_ok g.cid cn cls hc g.events]

/-- C2 witness: the amended statement applied to a concrete kept group with
one event. -/
theorem iter_issues_v7_kept_group_bumps_once_w :
    iter_issues_v7
      [{ cid := some 3, checker_name := none,
         checkerName := some "MISRA C-2012 Directive 1.1",
         strippedMainEventFilePathname := "k.c",
         events := [{ strippedFilePathname := "f.c", lineNumber := 12,
                      eventDescription := "dd" }] }] [] =
      .ok ([issueRecV7 (some 3) "MISRA C-2012 Directive 1.1" "required"
             { strippedFilePathname := "f.c", lineNumber := 12, eventDescription := "dd" }],
           [("required", 1), ("total", 1)]) :=
  (iter_issues_v7_kept_group_bumps_once
      { cid := some 3, checker_name := none,
        checkerName := some "MISRA C-2012 Directive 1.1",
        strippedMainEventFilePathname := "k.c",
        events := [{ strippedFilePathname := "f.c", lineNumber := 12,
                     eventDescription := "dd" }] }
      [] [] "MISRA C-2012 Directive 1.1" "required" rfl rfl rfl).trans rfl

/-- C3 counterexample: the claim states that classify returns unknown on a
matched checker whose kind word is neither Directive nor Rule; the code
instead raises KeyError on the dict lookup of the kind word. -/
theorem classify_unknown_kind_raises :
    _classify_checker "Foo 1.1" = .error .keyError
    ∧ (Except.error PyErr.keyError : Except PyErr String) ≠ .ok "unknown" :=
  ⟨rfl, fun h => nomatch h⟩

/-- C3 amended: classify returns unknown for strings the pattern does not
match and for matched strings of a known kind whose number is in no
configured set; it returns the label of the first configured set containing
the number for a known kind; but for a matched string of an unknown kind it
raises KeyError instead of returning unknown, so it is not total. -/
theorem classify_characterisation :
    (∀ s, checkerSearch s = none → _classify_checker s = .ok "unknown")
    ∧ (∀ s k n, checkerSearch s = some (k, n) → k ≠ "Directive" → k ≠ "Rule" →
        _classify_checker s = .error .keyError)
    ∧ (∀ s n, checkerSearch s = some ("Directive", n) → n ∈ _dir_required →
        _classify_checker s = .ok "required")
    ∧ (∀ s n, checkerSearch s = some ("Directive", n) → n ∉ _dir_required →
        n ∈ _dir_advisory → _classify_checker s = .ok "advisory")
    ∧ (∀ s n, checkerSearch s = some ("Directive", n) → n ∉ _dir_required →
        n ∉ _dir_advisory → _classify_checker s = .ok "unknown")
    ∧ (∀ s n, checkerSearch s = some ("Rule", n) → n ∈ _rule_mandatory →
        _classify_checker s = .ok "mandatory")
    ∧ (∀ s n, checkerSearch s = some ("Rule", n) → n ∉ _rule_mandatory →
        n ∈ _rule_required → _classify_checker s = .ok "required")
    ∧ (∀ s n, checkerSearch s = some ("Rule", n) → n ∉ _rule_mandatory →
        n ∉ _rule_required → n ∈ _rule_advisory → _classify_checker s = .ok "advisory")
    ∧ (∀ s n, checkerSearch s = some ("Rule", n) → n ∉ _rule_mandatory →
        n ∉ _rule_required → n ∉ _rule_advisory → _classify_checker s = .ok "unknown") := by
  refine ⟨?_, ?_, ?_, ?_, ?_, ?_, ?_, ?_, ?_⟩
  · intro s h; simp [_classify_checker, h]
  · intro s k n h hd hr; simp [_classify_checker, h, checkerLookup, hd, hr]
  · intro s n h h1; simp [_classify_checker, h, checkerLookup, scanSets, h1]
  · intro s n h h1 h2; simp [_classify_checker, h, checkerLookup, scanSets, h1, h2]
  · intro s n h h1 h2; simp [_classify_checker, h, checkerLookup, scanSets, h1, h2]
  · intro s n h h1; simp [_classify_checker, h, checkerLookup, scanSets, h1]
  · intro s n h h1 h2; simp [_classify_checker, h, checkerLookup, scanSets, h1, h2]
  · intro s n h h1 h2 h3
    simp [_classify_checker, h, checkerLookup, scanSets, h1, h2, h3]
  · intro s n h h1 h2 h3
    simp [_classify_checker, h, checkerLookup, scanSets, h1, h2, h3]

/-- C3 witness: the amended statement applied to concrete checker strings. -/
theorem classify_characterisation_w :
    _classify_checker "MISRA C-2012 Rule 9.1" = .ok "mandatory"
    ∧ _classify_checker "Foo 1.1" = .error .keyError :=
  ⟨classify_characterisation.2.2.2.2.2.1 "MISRA C-2012 Rule 9.1" "9.1" rfl (by decide),
   classify_characterisation.2.1 "Foo 1.1" "Foo" "1.1" rfl (by decide) (by decide)⟩

/-- C4 counterexample: the claim states that a present but non numeric
formatVersion is treated as below 7 and selects the legacy adapter; the code
instead raises TypeError when comparing a string against the integer 7. -/
theorem detect_gen_nonnumeric_raises :
    detect_gen (some (.jstr "six")) = .error .typeError
    ∧ (Except.error PyErr.typeError : Except PyErr Gen) ≠ .ok .legacy :=
  ⟨rfl, fun h => nomatch h⟩

/-- C4 amended: an absent formatVersion defaults to the legacy adapter;
numeric values at least 7 select the current adapter and numeric values
below 7, including negative ones, select the legacy adapter; booleans
compare as integers and select the legacy adapter; but a string or null
value raises TypeError, so detection is not total over any input. -/
theorem detect_gen_characterisation :
    detect_gen none = .ok .legacy
    ∧ (∀ n : Int, 7 ≤ n → detect_gen (some (.jint n)) = .ok .current)
    ∧ (∀ n : Int, n < 7 → detect_gen (some (.jint n)) = .ok .legacy)
    ∧ (∀ b, detect_gen (some (.jbool b)) = .ok .legacy)
    ∧ (∀ s, detect_gen (some (.jstr s)) = .error .typeError)
    ∧ detect_gen (some .jnull) = .error .typeError := by
  refine ⟨rfl, ?_, ?_, fun b => rfl, fun s => rfl, rfl⟩
  · intro n h; simp [detect_gen, h]
  · intro n h; simp [detect_gen, not_le.mpr h]

/-- C4 witness: the amended statement applied at the boundary value and at a
negative value. -/
theorem detect_gen_characterisation_w :
    detect_gen (some (.jint 7)) = .ok .current
    ∧ detect_gen (some (.jint (-1))) = .ok .legacy :=
  ⟨detect_gen_characterisation.2.1 7 (by decide),
   detect_gen_characterisation.2.2.1 (-1) (by decide)⟩

/-- C5 counterexample: the claim states that no yielded record starts with a
path separator even when the raw event path does; the v7 stream yields the
event path unchanged, here a record whose file starts with a slash. -/
theorem iter_issues_v7_record_keeps_leading_slash :
    iter_issues_v7
      [{ cid := some 2, checker_name := none,
         checkerName := some "MISRA C-2012 Rule 9.1",
         strippedMainEventFilePathname := "m.c",
         events := [{ strippedFilePathname := "/abs/p.c", lineNumber := 4,
                      eventDescription := "d" }] }] [] =
      .ok ([{ cid := some 2, file := "/abs/p.c", line := 4,
              checker := "MISRA C-2012 Rule 9.1", classification := "mandatory",
              description := "d" }], [("mandatory", 1), ("total", 1)])
    ∧ pyStartswith "/abs/p.c" "/" = true :=
  ⟨rfl, rfl⟩

/-- C5 amended: the legacy record constructor strips leading separators, so
its records never start with a slash; the v7 record constructor copies the
event path unchanged, so a v7 record starts with a slash exactly when the
raw event path does. -/
theorem new_issue_slash_normalisation :
    (∀ (cid : Nat) (occ : OccV1) (r : Issue),
        _new_issue cid occ = .ok r → pyStartswith r.file "/" = false)
    ∧ (∀ (cid : Option Nat) (cn : String) (ev : EventV7) (r : Issue),
        _new_issue_v7 cid cn ev = .ok r → r.file = ev.strippedFilePathname) := by
  constructor
  · intro cid occ r h
    unfold _new_issue at h
    cases hc : _classify_checker occ.checker with
    | error e => rw [hc] at h; exact Except.noConfusion h
    | ok cls =>
      rw [hc] at h
      injection h with h2
      subst h2
      exact pyStartswith_lstrip_slash occ.file
  · intro cid cn ev r h
    unfold _new_issue_v7 at h
    cases hc : _classify_checker cn with
    | error e => rw [hc] at h; exact Except.noConfusion h
    | ok cls =>
      rw [hc] at h
      injection h with h2
      subst h2
      rfl

/-- C5 witness: the amended statement applied to a concrete legacy occurrence
whose raw file path starts with a slash. -/
theorem new_issue_slash_normalisation_w :
    pyStartswith
      (Issue.file { cid := some 5, file := "x/y.c", line := 3,
                    checker := "MISRA C-2012 Rule 9.1", classification := "mandatory",
                    description := "d" }) "/" = false :=
  new_issue_slash_normalisation.1 5
    { checker := "MISRA C-2012 Rule 9.1", file := "/x/y.c",
      mainEventLineNumber := 3, mainEventDescription := "d" }
    { cid := some 5, file := "x/y.c", line := 3, checker := "MISRA C-2012 Rule 9.1",
      classification := "mandatory", description := "d" } rfl

/-- C6 counterexample: the claim states leading separator invariance for both
variants; the v7 filter does not strip, so prepending a slash changes the
decision on a path inside an ignored directory. -/
theorem is_ignored_v7_leading_slash_changes :
    ¬ (is_ignored_v7 ("/" ++ "lib/libfdt/a.c") = is_ignored_v7 "lib/libfdt/a.c") := by
  decide

/-- C6 amended: the directory exclusion test of the legacy filter is
invariant under a leading path separator, because the candidate is stripped
before the prefix test; the v7 filter applies the prefix test to the raw
path, and a leading separator defeats the exclusion. -/
theorem is_ignored_slash_invariance :
    (∀ p : String, is_ignored_v1 ("/" ++ p) = is_ignored_v1 p)
    ∧ is_ignored_v7 "lib/libfdt/a.c" = true
    ∧ is_ignored_v7 ("/" ++ "lib/libfdt/a.c") = false := by
  refine ⟨?_, by decide, by decide⟩
  intro p
  unfold is_ignored_v1
  simp only [pyLstrip_cons_slash]

/-- C7: a legacy group is kept exactly when the triage action is not Ignore,
the first occurrence checker is not excluded, the first occurrence file does
not match the directory ignore policy, and show all is set or the group is
not in the comparison snapshot; and removing a dropped group from a report
leaves the stream result, totals included, unchanged. -/
theorem filter_groups_v1_keep_iff (sa : Bool) (g : GroupV1) (occ0 : OccV1)
    (tl : List OccV1) (hocc : g.occurrences = occ0 :: tl) :
    (filter_groups_v1 sa g = .ok true ↔
      (g.triage_action ≠ "Ignore" ∧ occ0.checker ∉ _rule_exclusions ∧
       is_ignored_v1 occ0.file = false ∧
       (sa = true ∨ g.presentInComparisonSnapshot = false)))
    ∧ (∀ pre post t, filter_groups_v1 sa g = .ok false →
        iter_issues_v1 sa (pre ++ g :: post) t = iter_issues_v1 sa (pre ++ post) t) := by
  constructor
  · simp only [filter_groups_v1, hocc]
    by_cases h1 : g.triage_action = "Ignore"
    · simp [h1]
    · rw [if_neg h1]
      by_cases h2 : occ0.checker ∈ _rule_exclusions
      · simp [h1, h2]
      · rw [if_neg h2]
        by_cases h3 : is_ignored_v1 occ0.file = true
        · rw [if_pos h3]; simp [h1, h2, h3]
        · have h3f : is_ignored_v1 occ0.file = false := by
            cases hh : is_ignored_v1 occ0.file
            · rfl
            · exact absurd hh h3
          rw [if_neg h3]
          cases sa
          · simp [h1, h2, h3f]
          · simp [h1, h2, h3f]
  · intro pre post t hdrop
    induction pre generalizing t with
    | nil => simp [iter_issues_v1, hdrop]
    | cons p ps ih =>
      simp only [List.cons_append]
      cases hp : filter_groups_v1 sa p with
      | error e => simp [iter_issues_v1, hp]
      | ok b =>
        cases b with
        | false => simp only [iter_issues_v1, hp]; exact ih t
        | true => simp [iter_issues_v1, hp]

/-- C7 witness: the keep characterisation applied to a concrete kept group. -/
theorem filter_groups_v1_keep_iff_w :
    filter_groups_v1 false
      { cid := 7, triage_action := "Undecided", presentInComparisonSnapshot := false,
        occurrences := [{ checker := "MISRA C-2012 Rule 9.1", file := "drivers/foo.c",
                          mainEventLineNumber := 10, mainEventDescription := "d" }] }
      = .ok true :=
  (filter_groups_v1_keep_iff false _
    { checker := "MISRA C-2012 Rule 9.1", file := "drivers/foo.c",
      mainEventLineNumber := 10, mainEventDescription := "d" } [] rfl).1.mpr
    ⟨by decide, by decide, by decide, Or.inr rfl⟩

/-- C8: the key is the concatenation of file path, line number zero padded to
five digits, checker name and defect id zero padded to five digits; and for
two records sharing a file path, one at line 2 and one at line 10, the first
key is strictly below the second in string order, whatever the checker names
and defect ids are. -/
theorem make_key_concat_and_line_order (r1 r2 : Issue)
    (hf : r1.file = r2.file) (h1 : r1.line = 2) (h2 : r2.line = 10) :
    make_key r1 =
      r1.file ++ pyZfill (toString r1.line) 5 ++ r1.checker ++ pyZfill (pyStrCid r1.cid) 5
    ∧ make_key r1 < make_key r2 := by
  refine ⟨rfl, ?_⟩
  rw [String.lt_iff_toList_lt]
  have hz2 : pyZfill (toString r1.line) 5 = "00002" := by rw [h1]; exact rfl
  have hz10 : pyZfill (toString r2.line) 5 = "00010" := by rw [h2]; exact rfl
  have happ : ∀ a b : String, (a ++ b).toList = a.toList ++ b.toList :=
    fun a b => String.data_append a b
  show List.Lex (fun a b : Char => a < b) (make_key r1).toList (make_key r2).toList
  simp only [make_key, hf, hz2, hz10, happ, List.append_assoc]
  exact lexAppendLeft _ _ _ (lexMid _ _)

/-- C8 witness: the ordering applied to two concrete records with adverse
checker names and defect ids. -/
theorem make_key_concat_and_line_order_w :
    make_key { cid := some 99999, file := "f.c", line := 2, checker := "zzz",
               classification := "unknown", description := "d" } =
      "f.c" ++ pyZfill (toString 2) 5 ++ "zzz" ++ pyZfill (pyStrCid (some 99999)) 5
    ∧ make_key { cid := some 99999, file := "f.c", line := 2, checker := "zzz",
                 classification := "unknown", description := "d" } <
      make_key { cid := some 1, file := "f.c", line := 10, checker := "aaa",
                 classification := "unknown", description := "d" } :=
  make_key_concat_and_line_order _ _ rfl rfl rfl

/-- C9: the totals dump always has exactly four lines, and a classification
key absent from the accumulator reads as 0 through the defaultdict, so the
rendering never raises. -/
theorem totals_dump_four_lines_default_zero (t : Totals) :
    (TOTALS_LINES t).length = 4 ∧ ∀ k, k ∉ t.map Prod.fst → dget t k = 0 :=
  ⟨rfl, fun k hk => dget_absent t k hk⟩

/-- C9 witness: the statement applied to an accumulator holding only the
total key, whose mandatory entry renders as 0. -/
theorem totals_dump_four_lines_default_zero_w :
    (TOTALS_LINES [("total", 3)]).length = 4 ∧ dget [("total", 3)] "mandatory" = 0 :=
  ⟨(totals_dump_four_lines_default_zero [("total", 3)]).1,
   (totals_dump_four_lines_default_zero [("total", 3)]).2 "mandatory" (by decide)⟩

/-- C10: the record sequence of one Issues object is single use: the first
full drain yields the produced records and caches the exhausted generator,
every later drain yields nothing, and across all drains every record is
yielded at most once. -/
theorem issues_iteration_single_use (produce : List Issue) :
    (issues_iter_all produce issues_init).1 = produce
    ∧ (issues_iter_all produce (issues_iter_all produce issues_init).2).1 = []
    ∧ (issues_iter_all produce
        (issues_iter_all produce (issues_iter_all produce issues_init).2).2).1 = []
    ∧ (issues_iter_all produce issues_init).1
        ++ (issues_iter_all produce (issues_iter_all produce issues_init).2).1
        = produce := by
  refine ⟨rfl, rfl, rfl, ?_⟩
  simp [issues_iter_all, issues_init]

end Coverity
